import Mathlib

/-!
Verification development for the bigswitch/deployment-support repository.

The Python sources are shallowly embedded as Lean functions:

* `Openstack.TimedCommand` models `openstack/big_patch.py, TimedCommand.run`
  (timeout / retry command runner);
* `Openstack.PuppetTemplate` models the template renderer of
  `openstack/big_patch.py` (class `PuppetTemplate`);
* `Openstack.ConfigDeployer` models the per-node fan-out of
  `ConfigDeployer.deploy_to_all` / `deploy_to_node_catch_errors`;
* `Cloudstack` models the phase orchestrator `deploy_to_all` of
  `cloudstack/big_patch.py`, its queues, pre-flight package guards, and
  `generate_interface_config`;
* `Cleaner` models `bcf3.0/with_ivs/lib/cleaner.py, Cleaner.__init__`.

Stateful and concurrent code is modelled by explicit state passing: the
orchestrator is a function from a configuration and a file-system predicate
to the ordered list of phase runs it performs, and thread scheduling is
modelled by an explicit `Schedule` of start/end timestamps constrained by
exactly the synchronisation edges the code creates (thread start, queue
join, thread join).
-/

/-- Single-quote character, used to reproduce Python string literals that
contain quotes. -/
def pySq : String := String.singleton (Char.ofNat 39)

/-- Lookup in a Python-dict modelled as an association list (last binding
wins, as produced by `alistSet`). -/
def alistLookup (m : List (String × String)) (k : String) : Option String :=
  match m with
  | [] => none
  | (k₀, v₀) :: rest => if k₀ = k then some v₀ else alistLookup rest k

/-- `d[k] = v` on a Python dict modelled as an association list: replaces the
binding of `k` if present, otherwise appends it. -/
def alistSet (m : List (String × String)) (k v : String) : List (String × String) :=
  match m with
  | [] => [(k, v)]
  | (k₀, v₀) :: rest => if k₀ = k then (k₀, v) :: rest else (k₀, v₀) :: alistSet rest k v

namespace Openstack

/-- Maximum number of threads to deploy to nodes concurrently
(`openstack/big_patch.py`, `MAX_THREADS = 20`). -/
def MAX_THREADS : Nat := 20

/-! ### `TimedCommand.run`

```python
def run(self, timeout=60, retries=0, shell=False):
    def target():
        try:
            self.process = subprocess.Popen(self.cmd, stdout=PIPE, stderr=PIPE, shell=shell)
        except Exception as e:
            self.errors = 'Error opening process "%s": %s' % (self.cmd, e)
            return
        self.resp, self.errors = self.process.communicate()
    thread = threading.Thread(target=target); thread.start()
    thread.join(timeout)
    if thread.is_alive():
        self.process.terminate()
        thread.join()
        if self.retries < retries:
            self.retries += 1
            return self.run(timeout, retries)
        self.errors = "Timed out waiting for command '%s' to finish." % self.cmd
    return self.resp, self.errors
```

The behaviour of one OS-level attempt (does `communicate` return within the
timeout, and with what stdout/stderr) is an oracle indexed by the attempt
number (the value of `self.retries` when the attempt is made).  The
recursion `self.run(timeout, retries)` is bounded because `self.retries`
strictly increases towards `retries`; we recurse on the remaining budget
`retries - self.retries`, which makes the guard `self.retries < retries`
the test `remaining > 0`.  Note that the recursive call passes `timeout`
and `retries` but NOT `shell`, so every re-attempt runs with the default
`shell=False`.
-/

/-- Outcome of a single attempt: either `communicate` returned within the
timeout (with the given stdout/stderr, `none` = Python `None`, which is
what a spawn failure leaves in `self.resp`), or the watchdog found the
thread still alive after `timeout` seconds and the process was killed
(`communicate` then returns the given partial stdout/stderr). -/
inductive AttemptOutcome where
  | completed (resp errs : Option String)
  | timedOut (resp errs : Option String)
deriving DecidableEq

/-- `true` iff the attempt exceeded the timeout. -/
def AttemptOutcome.isTimedOut : AttemptOutcome → Bool
  | .completed _ _ => false
  | .timedOut _ _ => true

/-- The observable footprint of one attempt: the command handed to `Popen`,
the timeout passed to `thread.join`, the `shell` flag of the `Popen` call,
and whether `self.process.terminate()` was invoked on it. -/
structure AttemptRecord where
  cmd : String
  timeout : Nat
  shell : Bool
  terminated : Bool
deriving DecidableEq

/-- Value of `TimedCommand.run`: the returned `(self.resp, self.errors)`
pair together with the list of attempts actually performed, in order. -/
structure RunResult where
  resp : Option String
  errors : Option String
  attempts : List AttemptRecord
deriving DecidableEq

/-- `"Timed out waiting for command '%s' to finish." % self.cmd` -/
def timeoutMessage (cmd : String) : String :=
  "Timed out waiting for command " ++ pySq ++ cmd ++ pySq ++ " to finish."

/-- One unfolding of `TimedCommand.run` per remaining retry budget.
`attemptIdx` is the current value of `self.retries`; `remaining` is
`retries - self.retries`, so `remaining > 0` is the guard
`self.retries < retries`.  On a timeout the process is terminated and, if
budget remains, the code re-enters `run(timeout, retries)` — with
`self.retries` incremented and `shell` silently back at its default
`False`. -/
def runAux (cmd : String) (oracle : Nat → AttemptOutcome) (timeout : Nat)
    (shell : Bool) (attemptIdx : Nat) (remaining : Nat) : RunResult :=
  match oracle attemptIdx with
  | .completed resp errs =>
      { resp := resp, errors := errs,
        attempts := [⟨cmd, timeout, shell, false⟩] }
  | .timedOut resp errs =>
      match remaining with
      | rem + 1 =>
          let r := runAux cmd oracle timeout false (attemptIdx + 1) rem
          { r with attempts := ⟨cmd, timeout, shell, true⟩ :: r.attempts }
      | 0 =>
          { resp := resp, errors := some (timeoutMessage cmd),
            attempts := [⟨cmd, timeout, shell, true⟩] }

/-- `TimedCommand(cmd).run(timeout, retries, shell)` — a fresh object has
`self.retries = 0`, so the initial remaining budget is `retries`. -/
def TimedCommand.run (cmd : String) (oracle : Nat → AttemptOutcome)
    (timeout retries : Nat) (shell : Bool) : RunResult :=
  runAux cmd oracle timeout shell 0 retries

/-! ### `PuppetTemplate`

`PuppetTemplate.__init__` fills `self.settings` with a complete default
dict and then overwrites each key supplied by the caller; `get_string`
substitutes `self.settings` into the class templates with Python `%`
formatting.  A `%`-template is modelled as a list of chunks (literal text
or a substitution key); `%` raises `KeyError` when a key is absent from
the mapping, which the renderer models with `Except`. -/

inductive Chunk where
  | lit (s : String)
  | key (k : String)
deriving DecidableEq

/-- Python `template % mapping`: substitute every `%(k)s` with `mapping[k]`,
failing with `KeyError` when a key is missing. -/
def renderChunks (t : List Chunk) (m : List (String × String)) : Except String String :=
  match t with
  | [] => .ok ""
  | .lit s :: rest =>
      match renderChunks rest m with
      | .ok tail => .ok (s ++ tail)
      | .error e => .error e
  | .key k :: rest =>
      match alistLookup m k with
      | some v =>
          match renderChunks rest m with
          | .ok tail => .ok (v ++ tail)
          | .error e => .error e
      | none => .error ("KeyError: " ++ k)

/-- `self.settings['k']` — a Python dict access that raises `KeyError` when
absent. -/
def dictGet (m : List (String × String)) (k : String) : Except String String :=
  match alistLookup m k with
  | some v => .ok v
  | none => .error ("KeyError: " ++ k)

/-- `true` iff the computation did not raise. -/
def isOkE {α : Type} (e : Except String α) : Bool :=
  match e with
  | .ok _ => true
  | .error _ => false

namespace PuppetTemplate

/-- The default `self.settings` dict written by `PuppetTemplate.__init__`
(source order preserved). -/
def defaultSettings : List (String × String) :=
  [("bond_int0", ""), ("bond_int1", ""), ("bond_interfaces", ""),
   ("neutron_id", ""), ("bigswitch_servers", ""),
   ("bigswitch_serverauth", ""), ("network_vlan_ranges", ""),
   ("physical_bridge", "br-ovs-bond0"), ("bridge_mappings", ""),
   ("neutron_path", ""), ("neutron_restart_refresh_only", ""),
   ("offline_mode", ""), ("bond_mode", ""), ("lldp_advertised_name", "")]

/-- `for key in settings: self.settings[key] = settings[key]` — the caller's
mapping is laid over the defaults. -/
def mkSettings (settings : List (String × String)) : List (String × String) :=
  settings.foldl (fun acc kv => alistSet acc kv.1 kv.2) defaultSettings

/-- `main_body` — the only class template containing `%(...)s` keys.  Its
literal text is reproduced verbatim (single quotes written via `pySq`). -/
def main_body : List Chunk :=
  [.lit ("\n$neutron_id = " ++ pySq), .key "neutron_id",
   .lit (pySq ++ "\n$bigswitch_serverauth = " ++ pySq), .key "bigswitch_serverauth",
   .lit (pySq ++ "\n$bigswitch_servers = " ++ pySq), .key "bigswitch_servers",
   .lit (pySq ++ "\n$bond_interfaces = " ++ pySq), .key "bond_interfaces",
   .lit (pySq ++ "\n$network_vlan_ranges = " ++ pySq), .key "network_vlan_ranges",
   .lit (pySq ++ "\n$bond_int0 = " ++ pySq), .key "bond_int0",
   .lit (pySq ++ "\n$bond_int1 = " ++ pySq), .key "bond_int1",
   .lit (pySq ++ "\n$phy_bridge = " ++ pySq), .key "physical_bridge",
   .lit (pySq ++ "\n$ovs_bridge_mappings = " ++ pySq), .key "bridge_mappings",
   .lit (pySq ++ "\n$neutron_restart_refresh_only = " ++ pySq),
   .key "neutron_restart_refresh_only",
   .lit (pySq ++ "\n# delay in milliseconds before bond interface is used after coming online\n$bond_updelay = "
         ++ pySq ++ "15000" ++ pySq
         ++ "\n# time in seconds between lldp transmissions\n$lldp_transmit_interval = "
         ++ pySq ++ "5" ++ pySq ++ "\n$offline_mode = "),
   .key "offline_mode",
   .lit "\n$bond_mode = ", .key "bond_mode",
   .lit ("\n$lldp_advertised_name = " ++ pySq), .key "lldp_advertised_name",
   .lit (pySq ++ "\n")]

/-- `neutron_body` is a fixed 21765-byte class constant that contains no
percent character at all, so `neutron_body % settings` is the identity on
it; only that fact matters here, so the literal text is stood in for by a
marker string.  It is still pushed through `renderChunks` exactly as the
code pushes it through `%`. -/
def neutron_body : List Chunk :=
  [.lit "<neutron_body: fixed class constant, no substitution keys>"]

/-- `bond_and_lldpd_configuration` is a fixed 12497-byte class constant that
is appended verbatim (the code performs no `%` on it). -/
def bond_and_lldpd_configuration : String :=
  "<bond_and_lldpd_configuration: fixed class constant, appended verbatim>"

/-- One replacement-file stanza from `get_string`:

```python
escaped = contents.replace("\\", "\\\\").replace("'", "\\'")
manifest += ("\nfile {'%(path)s':\nensure => file,"
             "\npath => '%(path)s',\nmode => 0755,"
             "\nnotify => Exec['restartneutronservices'],"
             "\nrequire => Exec['neutronfilespresent'],"
             "\ncontent => '%(escaped_content)s'\n}" % {...})
```

The local mapping always carries both keys, so this substitution is modelled
directly as concatenation. -/
def fileStanza (path contents : String) : String :=
  let escaped := (contents.replace "\\" "\\\\").replace pySq ("\\" ++ pySq)
  "\nfile \x7b" ++ pySq ++ path ++ pySq ++ ":\nensure => file,"
    ++ "\npath => " ++ pySq ++ path ++ pySq ++ ",\nmode => 0755,"
    ++ "\nnotify => Exec[" ++ pySq ++ "restartneutronservices" ++ pySq ++ "],"
    ++ "\nrequire => Exec[" ++ pySq ++ "neutronfilespresent" ++ pySq ++ "],"
    ++ "\ncontent => " ++ pySq ++ escaped ++ pySq ++ "\n\x7d"

/-- `PuppetTemplate.get_string(self)`: substitute settings into `main_body`;
append `neutron_body % settings` when `settings['neutron_path']` is truthy;
append the bond/lldpd block when `settings['bond_interfaces']` is truthy;
then append one stanza per entry of `self.files_to_replace`. -/
def get_string (settings : List (String × String))
    (files_to_replace : List (String × String)) : Except String String :=
  match renderChunks main_body settings with
  | .error e => .error e
  | .ok manifest =>
    match dictGet settings "neutron_path" with
    | .error e => .error e
    | .ok np =>
      let step1 : Except String String :=
        if np ≠ "" then
          match renderChunks neutron_body settings with
          | .error e => .error e
          | .ok nb => .ok (manifest ++ nb)
        else .ok manifest
      match step1 with
      | .error e => .error e
      | .ok manifest =>
        match dictGet settings "bond_interfaces" with
        | .error e => .error e
        | .ok bi =>
          let manifest := if bi ≠ "" then manifest ++ bond_and_lldpd_configuration else manifest
          .ok (files_to_replace.foldl (fun acc pc => acc ++ fileStanza pc.1 pc.2) manifest)

end PuppetTemplate

/-! ### `ConfigDeployer.deploy_to_all` / `deploy_to_node_catch_errors`

```python
def deploy_to_node_catch_errors(self, node, error_log, node_information):
    try:
        self.deploy_to_node(node, node_information)
    except Exception as e:
        error_log.append((node, str(e)))
```

The per-node action (`deploy_to_node`, which either finishes printing
"Configuration applied" or raises) is an oracle `String → Except String
Unit`.  `deploy_to_all` starts one worker per node (bounded by the deque
logic modelled separately in `dequeSizesAux`), waits for all of them, and
prints one summary line per collected error.  Thread interleaving permutes
`error_log`; the model fixes node order, which does not affect which pairs
are appended. -/

def deploy_to_node_catch_errors (action : String → Except String Unit)
    (node : String) (error_log : List (String × String)) : List (String × String) :=
  match action node with
  | .ok _ => error_log
  | .error e => error_log ++ [(node, e)]

/-- The error list accumulated by `ConfigDeployer.deploy_to_all` after every
node's worker has been joined (`errors = []` at entry). -/
def ConfigDeployer.deploy_to_all (action : String → Except String Unit)
    (nodes : List String) : List (String × String) :=
  nodes.foldl (fun log n => deploy_to_node_catch_errors action n log) []

/-- The nodes whose `deploy_to_node` ran to completion (did not raise). -/
def completedNodes (action : String → Except String Unit)
    (nodes : List String) : List String :=
  nodes.filter (fun n => isOkE (action n))

/-- The final summary printed by `deploy_to_all`:
`"Error on node %s:\n%s" % (node, error)` for each collected pair. -/
def finalSummary (errors : List (String × String)) : List String :=
  errors.map (fun p => "Error on node " ++ p.1 ++ ":\n" ++ p.2)

/-! ### The bounded thread deque of `deploy_to_all`

```python
thread_list = collections.deque()
for node in self.env.nodes:
    t = threading.Thread(...); thread_list.append(t); t.start()
    if len(thread_list) >= MAX_THREADS:
        top = thread_list.popleft(); top.join()
```

A thread leaves the deque only once `join` has confirmed it dead, so the
set of per-node worker threads that can still be alive is always a subset
of the deque's contents; the deque length right after each `t.start()` is
therefore an upper bound for worker concurrency at every instant. -/

/-- Successive deque lengths observed immediately after each `t.start()`,
starting from length `len`. -/
def dequeSizesAux : Nat → Nat → List Nat
  | 0, _ => []
  | n + 1, len =>
    let grown := len + 1
    grown :: dequeSizesAux n (if MAX_THREADS ≤ grown then grown - 1 else grown)

/-- Deque lengths after each thread start over a run with `numNodes` nodes
(the deque starts empty). -/
def deployDequeSizes (numNodes : Nat) : List Nat :=
  dequeSizesAux numNodes 0

end Openstack

namespace Cloudstack

/-- Maximum number of workers to deploy to nodes concurrently
(`cloudstack/big_patch.py`, `MAX_WORKERS = 10`). -/
def MAX_WORKERS : Nat := 10

def CS_VERSION : String := "4.5.0"

def CS_COMMON : String := "cloudstack-common_" ++ CS_VERSION ++ "-snapshot_all.deb"

def CS_MGMT : String := "cloudstack-management_" ++ CS_VERSION ++ "-snapshot_all.deb"

def CS_AGENT : String := "cloudstack-agent_" ++ CS_VERSION ++ "-snapshot_all.deb"

def CS_COMMON_RPM : String := "cloudstack-common-" ++ CS_VERSION ++ "-SNAPSHOT.el6.x86_64.rpm"

def CS_MGMT_RPM : String := "cloudstack-management-" ++ CS_VERSION ++ "-SNAPSHOT.el6.x86_64.rpm"

def CS_AWSAPI_RPM : String := "cloudstack-awsapi-" ++ CS_VERSION ++ "-SNAPSHOT.el6.x86_64.rpm"

def CS_AGENT_RPM : String := "cloudstack-agent-" ++ CS_VERSION ++ "-SNAPSHOT.el6.x86_64.rpm"

def ROLE_MGMT : String := "management"

def ROLE_COMPUTE : String := "compute"

/-- A YAML scalar as it reaches `get_raw_value`: Python `None`, a string
(numbers are rendered by `%s` anyway, so they are kept as their decimal
text), or a list of strings. -/
inductive PyVal where
  | null
  | str (s : String)
  | list (vs : List String)
deriving DecidableEq

/-- Dict lookup over `List (String × PyVal)`. -/
def pvLookup (m : List (String × PyVal)) (k : String) : Option PyVal :=
  match m with
  | [] => none
  | (k₀, v₀) :: rest => if k₀ = k then some v₀ else pvLookup rest k

/-- ```python
def get_raw_value(dic, key):
    value = dic[key]
    if type(value) in (tuple, list):
        value = value[0]
    return value
```
`dic[key]` raises `KeyError` when absent and `value[0]` raises `IndexError`
on an empty list.  The returned scalar is `Option String`: `none` is Python
`None`. -/
def get_raw_value (dic : List (String × PyVal)) (key : String) :
    Except String (Option String) :=
  match pvLookup dic key with
  | none => .error ("KeyError: " ++ key)
  | some .null => .ok none
  | some (.str s) => .ok (some s)
  | some (.list vs) =>
      match vs with
      | [] => .error "IndexError: list index out of range"
      | v :: _ => .ok (some v)

/-- Python `'%s' % v` on a scalar that may be `None`. -/
def pyStr (v : Option String) : String :=
  match v with
  | none => "None"
  | some s => s

/-- Python truthiness of a scalar (`None` and `''` are falsy). -/
def pyTruthy (v : Option String) : Bool :=
  match v with
  | none => false
  | some s => s ≠ ""

/-- The fields of a `Node` object read by `generate_interface_config`
(credentials and labels are carried to show they do NOT influence the
rendered text).  `management_bond` is only populated for the management
role and `bridges` only otherwise, mirroring `Node.__init__`. -/
structure CsNode where
  hostname : String
  host_name_label : String
  node_username : String
  node_password : String
  pxe_gw : String
  role : String
  bond_name : String
  bond_interfaces : List String
  pxe_interface : List (String × PyVal)
  management_bond : List (String × PyVal)
  bridges : List (List (String × PyVal))
deriving DecidableEq

/-- One iteration of the `for bridge in node.bridges` loop of
`generate_interface_config` (non-management branch): build the optional
vlan stanza and, for compute roles, the bridge stanza. -/
def bridgeStanza (bond_name role : String) (bridge : List (String × PyVal)) :
    Except String String :=
  match get_raw_value bridge "name" with
  | .error e => .error e
  | .ok name =>
  match get_raw_value bridge "vlan" with
  | .error e => .error e
  | .ok vlan =>
  match get_raw_value bridge "inet" with
  | .error e => .error e
  | .ok inet =>
  let addressR : Except String String :=
    match pvLookup bridge "address" with
    | some _ =>
        match get_raw_value bridge "address" with
        | .error e => .error e
        | .ok v => .ok (pyStr v)
    | none => .ok ""
  match addressR with
  | .error e => .error e
  | .ok address =>
  let netmaskR : Except String String :=
    match pvLookup bridge "netmask" with
    | some _ =>
        match get_raw_value bridge "netmask" with
        | .error e => .error e
        | .ok v => .ok (pyStr v)
    | none => .ok ""
  match netmaskR with
  | .error e => .error e
  | .ok netmask =>
  let gatewayR : Except String String :=
    match pvLookup bridge "gateway" with
    | some _ =>
        match get_raw_value bridge "gateway" with
        | .error e => .error e
        | .ok v => .ok (pyStr v)
    | none => .ok ""
  match gatewayR with
  | .error e => .error e
  | .ok gateway =>
  let port_name :=
    if pyTruthy vlan then bond_name ++ "." ++ pyStr vlan else bond_name
  let vlanPart :=
    if pyTruthy vlan then
      "auto " ++ port_name ++ "\n  iface " ++ port_name ++ " inet manual\n  vlan-raw-device "
        ++ bond_name ++ "\n\n"
    else ""
  let bridgePart :=
    if role = ROLE_COMPUTE ∧ inet ≠ some "static" then
      "auto " ++ pyStr name ++ "\n  iface " ++ pyStr name ++ " inet " ++ pyStr inet
        ++ "\n  bridge_ports " ++ port_name ++ "\n  bridge_stp off\n  up /sbin/ifconfig $IFACE up || /bin/true\n\n"
    else if role = ROLE_COMPUTE ∧ inet = some "static" then
      "auto " ++ pyStr name ++ "\n  iface " ++ pyStr name ++ " inet " ++ pyStr inet
        ++ "\n  address " ++ address ++ "\n  netmask " ++ netmask ++ "\n  gateway " ++ gateway
        ++ "\n  bridge_ports " ++ port_name ++ "\n  bridge_stp off\n  up /sbin/ifconfig $IFACE up || /bin/true\n\n"
    else ""
  .ok (vlanPart ++ bridgePart)

/-- Sequential rendering of all bridges (the loop body appends to `config`). -/
def bridgesText (bond_name role : String) :
    List (List (String × PyVal)) → Except String String
  | [] => .ok ""
  | b :: rest =>
    match bridgeStanza bond_name role b with
    | .error e => .error e
    | .ok s =>
      match bridgesText bond_name role rest with
      | .error e => .error e
      | .ok tail => .ok (s ++ tail)

/-- The text written to `/tmp/%s.intf` by `generate_interface_config`
(lines 1524–1682 of `cloudstack/big_patch.py`); the file write itself is
the only side effect and is keyed by `node.hostname`. -/
def interfaceConfigText (node : CsNode) : Except String String :=
  let config := "auto lo\n  iface lo inet loopback\n\n"
  match get_raw_value node.pxe_interface "interface" with
  | .error e => .error e
  | .ok pxe_intf =>
  match get_raw_value node.pxe_interface "inet" with
  | .error e => .error e
  | .ok pxe_inet =>
  let pxePartR : Except String String :=
    if pxe_inet ≠ some "static" then
      .ok ("auto " ++ pyStr pxe_intf ++ "\n  iface " ++ pyStr pxe_intf ++ " inet "
           ++ pyStr pxe_inet ++ "\n  up route add default gw " ++ node.pxe_gw ++ "\n\n")
    else
      match get_raw_value node.pxe_interface "address" with
      | .error e => .error e
      | .ok address =>
      match get_raw_value node.pxe_interface "netmask" with
      | .error e => .error e
      | .ok netmask =>
      match get_raw_value node.pxe_interface "dns-nameservers" with
      | .error e => .error e
      | .ok dns =>
        .ok ("auto " ++ pyStr pxe_intf ++ "\n  iface " ++ pyStr pxe_intf ++ " inet "
             ++ pyStr pxe_inet ++ "\n  address " ++ pyStr address ++ "\n  netmask "
             ++ pyStr netmask ++ "\n  dns-nameservers " ++ pyStr dns
             ++ "\n  up route add default gw " ++ node.pxe_gw ++ "\n\n")
  match pxePartR with
  | .error e => .error e
  | .ok pxePart =>
  let bondMembers := node.bond_interfaces.foldl
    (fun acc intf =>
      acc ++ "auto " ++ intf ++ "\n  iface " ++ intf ++ " inet manual\n  bond-master "
        ++ node.bond_name ++ "\n\n") ""
  if node.role = ROLE_MGMT then
    match get_raw_value node.management_bond "vlan" with
    | .error e => .error e
    | .ok vlan =>
    match get_raw_value node.management_bond "inet" with
    | .error e => .error e
    | .ok inet =>
    let vlanBondPart :=
      if pyTruthy vlan then
        "auto " ++ node.bond_name ++ "\n  iface " ++ node.bond_name
          ++ " inet manual\n  bond-mode 0\n  bond-slaves none\n  bond-updelay 15000\n  bond-miimon 50\n\n"
      else ""
    let addrR : Except String (Option String × Option String) :=
      if inet = some "static" then
        match get_raw_value node.management_bond "address" with
        | .error e => .error e
        | .ok address =>
          match get_raw_value node.management_bond "netmask" with
          | .error e => .error e
          | .ok netmask => .ok (address, netmask)
      else .ok (none, none)
    match addrR with
    | .error e => .error e
    | .ok (address, netmask) =>
    let mgmtPart :=
      if pyTruthy vlan ∧ inet ≠ some "static" then
        "auto " ++ node.bond_name ++ "." ++ pyStr vlan ++ "\n  iface " ++ node.bond_name
          ++ "." ++ pyStr vlan ++ " inet " ++ pyStr inet ++ "\n  vlan-raw-device "
          ++ node.bond_name ++ "\n\n"
      else if pyTruthy vlan ∧ inet = some "static" then
        "auto " ++ node.bond_name ++ "." ++ pyStr vlan ++ "\n  iface " ++ node.bond_name
          ++ "." ++ pyStr vlan ++ " inet " ++ pyStr inet ++ "\n  vlan-raw-device "
          ++ node.bond_name ++ "\n  address " ++ pyStr address ++ "\n  netmask "
          ++ pyStr netmask ++ "\n\n"
      else if ¬ pyTruthy vlan ∧ inet ≠ some "static" then
        "auto " ++ node.bond_name ++ "\n  iface " ++ node.bond_name ++ " inet "
          ++ pyStr inet
          ++ "\n  bond-mode 0\n  bond-slaves none\n  bond-updelay 15000\n  bond-miimon 50\n\n"
      else
        "auto " ++ node.bond_name ++ "\n  iface " ++ node.bond_name ++ " inet "
          ++ pyStr inet ++ "\n  address " ++ pyStr address ++ "\n  netmask " ++ pyStr netmask
          ++ "\n  bond-mode 0\n  bond-slaves none\n  bond-updelay 15000\n  bond-miimon 50\n\n"
    .ok (config ++ pxePart ++ bondMembers ++ vlanBondPart ++ mgmtPart)
  else
    let bondPart :=
      "auto " ++ node.bond_name ++ "\n  iface " ++ node.bond_name
        ++ " inet manual\n  bond-mode 0\n  bond-slaves none\n  bond-updelay 15000\n  bond-miimon 50\n\n"
    match bridgesText node.bond_name node.role node.bridges with
    | .error e => .error e
    | .ok bridgesPart => .ok (config ++ pxePart ++ bondMembers ++ bondPart ++ bridgesPart)

end Cloudstack

namespace Cloudstack

/-! ### The phase orchestrator `deploy_to_all` (cloudstack)

The nine phases, in the code's fixed order, are indexed by `Fin 9`:

0 setup-management (`worker_setup_management`, one dedicated thread),
1 setup-base-nodes (`worker_setup_master`, `node_q`),
2 join-cluster (`worker_join_cluster`, `xen_slave_node_q`),
3 assign-ip (`worker_assign_ip`, `xen_master_node_q`),
4 change-mgmt-interface (`worker_change_mgmtintf`, `node_mgmtintf_q`),
5 reboot-primary (`worker_reboot_master`, `xen_master_node_reboot_q`),
6 reboot-secondary (`worker_reboot_slave`, `xen_slave_node_reboot_q`),
7 verify-bond (`worker_check_bond`, `xen_check_bond_q`),
8 reboot-management (`worker_reboot_management`, one dedicated thread). -/

/-- The per-node configuration fields that drive queue population
(`deploy_to_all` lines 2276–2352); defaults from the YAML document have
already been applied by the preceding loop. -/
structure CsNodeConfig where
  hostname : String
  role : String
  xenserver_pool : String
deriving DecidableEq

structure CsConfig where
  compute_os : String
  management_os : String
  nodes : List CsNodeConfig
deriving DecidableEq

/-- The module-level queues and tables after the population loop:
`MANAGEMENT_NODE`, the seven `Queue.Queue()`s, and the insertion-ordered
key set of `MASTER_NODES`. -/
structure CsQueues where
  management_node : Option CsNodeConfig
  node_q : List CsNodeConfig
  node_mgmtintf_q : List CsNodeConfig
  xen_check_bond_q : List CsNodeConfig
  master_pools : List String
  xen_master_node_q : List CsNodeConfig
  xen_master_node_reboot_q : List CsNodeConfig
  xen_slave_node_q : List CsNodeConfig
  xen_slave_node_reboot_q : List CsNodeConfig
deriving DecidableEq

def emptyQueues : CsQueues :=
  { management_node := none, node_q := [], node_mgmtintf_q := [],
    xen_check_bond_q := [], master_pools := [], xen_master_node_q := [],
    xen_master_node_reboot_q := [], xen_slave_node_q := [],
    xen_slave_node_reboot_q := [] }

/-- One iteration of the node loop: a management node becomes
`MANAGEMENT_NODE`; any other node is put on `node_q`, `node_mgmtintf_q` and
`xen_check_bond_q`; the first xenserver compute node of a pool becomes that
pool's master (master queues), later ones become slaves (slave queues). -/
def enqueueNode (compute_os : String) (qs : CsQueues) (node : CsNodeConfig) : CsQueues :=
  let qs :=
    if node.role = ROLE_MGMT then { qs with management_node := some node }
    else
      { qs with node_q := qs.node_q ++ [node],
                node_mgmtintf_q := qs.node_mgmtintf_q ++ [node],
                xen_check_bond_q := qs.xen_check_bond_q ++ [node] }
  if compute_os = "xenserver" ∧ node.role = ROLE_COMPUTE
      ∧ node.xenserver_pool ∉ qs.master_pools then
    { qs with master_pools := qs.master_pools ++ [node.xenserver_pool],
              xen_master_node_q := qs.xen_master_node_q ++ [node],
              xen_master_node_reboot_q := qs.xen_master_node_reboot_q ++ [node] }
  else if compute_os = "xenserver" ∧ node.role = ROLE_COMPUTE then
    { qs with xen_slave_node_q := qs.xen_slave_node_q ++ [node],
              xen_slave_node_reboot_q := qs.xen_slave_node_reboot_q ++ [node] }
  else qs

def populateQueues (cfg : CsConfig) : CsQueues :=
  cfg.nodes.foldl (enqueueNode cfg.compute_os) emptyQueues

/-- The five pre-flight guards of `deploy_to_all` (lines 2377–2391), checked
in order against `os.path.isfile` (modelled by `isfile`); the first failing
guard's message is returned. -/
def preflightAbort (cfg : CsConfig) (qs : CsQueues) (isfile : String → Bool) :
    Option String :=
  if (qs.management_node.isSome ∨ cfg.compute_os ≠ "xenserver")
      ∧ ¬ isfile ("/tmp/" ++ CS_COMMON_RPM) ∧ ¬ isfile ("/tmp/" ++ CS_COMMON) then
    some "cloudstack common package is missing\n"
  else if qs.management_node.isSome
      ∧ ¬ isfile ("/tmp/" ++ CS_MGMT_RPM) ∧ ¬ isfile ("/tmp/" ++ CS_MGMT) then
    some "cloudstack management package is missing\n"
  else if cfg.compute_os = "ubuntu" ∧ 0 < qs.node_q.length
      ∧ ¬ isfile ("/tmp/" ++ CS_AGENT) then
    some "cloudstack agent package is missing\n"
  else if cfg.compute_os = "centos" ∧ 0 < qs.node_q.length
      ∧ ¬ isfile ("/tmp/" ++ CS_AGENT_RPM) then
    some "cloudstack agent package is missing\n"
  else if cfg.management_os = "centos" ∧ qs.management_node.isSome
      ∧ ¬ isfile ("/tmp/" ++ CS_AWSAPI_RPM) then
    some "cloudstack awsapi package is missing\n"
  else none

/-- One executed phase: which phase, how many worker threads the
orchestrator started for it, and how many items its queue held.  Every
worker is a daemon thread of the shape

```python
while True:
    node = q.get()
    ...
    q.task_done()
```

so after the queue drains every one of the `workersSpawned` threads blocks
forever inside `q.get()` (they are reclaimed only because they are daemon
threads). -/
structure PhaseRun where
  phase : Fin 9
  workersSpawned : Nat
  queueItems : Nat
deriving DecidableEq

/-- `Queue.join()` returns once `unfinished_tasks` reaches zero, i.e. after
one `task_done` per item ever put; the number of completions the
orchestrator's join must wait for is exactly the item count (zero items:
join returns immediately). -/
def joinWaitsFor (r : PhaseRun) : Nat := r.queueItems

/-- Workers left blocked in `q.get()` forever once the phase's queue is
drained: all of them, since the `while True` loop has no exit. -/
def workersBlockedForever (r : PhaseRun) : Nat := r.workersSpawned

inductive CsDeployOutcome where
  | aborted (msg : String)
  | completed (runs : List PhaseRun)
deriving DecidableEq

/-- The control flow of `deploy_to_all` after the local package copy and
per-node file generation: populate queues, run the pre-flight guards
(returning before any `threading.Thread` is created when one fails), then
start the phases in the code's order.  On the ubuntu/centos path the
function returns after step 1 (plus a management reboot when a management
node exists); on the xenserver path it runs steps 2–7 and then reboots the
management node if present. -/
def deploy_to_all (cfg : CsConfig) (isfile : String → Bool) : CsDeployOutcome :=
  let qs := populateQueues cfg
  match preflightAbort cfg qs isfile with
  | some msg => .aborted msg
  | none =>
    let step0 : List PhaseRun :=
      match qs.management_node with
      | some _ => [⟨0, 1, 1⟩]
      | none => []
    let step1 : List PhaseRun := [⟨1, MAX_WORKERS, qs.node_q.length⟩]
    if cfg.compute_os = "ubuntu" ∨ cfg.compute_os = "centos" then
      match qs.management_node with
      | some _ => .completed (step0 ++ step1 ++ [⟨8, 1, 1⟩])
      | none => .completed (step0 ++ step1)
    else
      let xenSteps : List PhaseRun :=
        [⟨2, MAX_WORKERS, qs.xen_slave_node_q.length⟩,
         ⟨3, MAX_WORKERS, qs.xen_master_node_q.length⟩,
         ⟨4, MAX_WORKERS, qs.node_mgmtintf_q.length⟩,
         ⟨5, MAX_WORKERS, qs.xen_master_node_reboot_q.length⟩,
         ⟨6, MAX_WORKERS, qs.xen_slave_node_reboot_q.length⟩,
         ⟨7, MAX_WORKERS, qs.xen_check_bond_q.length⟩]
      match qs.management_node with
      | some _ => .completed (step0 ++ step1 ++ xenSteps ++ [⟨8, 1, 1⟩])
      | none => .completed (step0 ++ step1 ++ xenSteps)

/-! ### Timestamp schedules

A `Schedule` assigns timestamps to the events of one xenserver-path run
with a management node: when each phase's worker threads are started
(`spawn`), when each work item's processing begins (`startT`) and ends
(`endT`), and when the orchestrator's join on the phase returns
(`joinRet`; for phases 0 and 8 this is the `Thread.join()` on the
dedicated thread).  `Consistent` contains exactly the synchronisation
edges the code creates, and nothing else: any timestamp assignment
satisfying it is an execution the code admits. -/

structure Schedule where
  items : Fin 9 → Nat
  spawn : Fin 9 → Nat
  startT : Fin 9 → Nat → Nat
  endT : Fin 9 → Nat → Nat
  joinRet : Fin 9 → Nat

/-- Worker/queue discipline: an item is only picked up by a worker after
the phase's threads were started, processing takes positive time, and the
phase's join cannot return before every item's `task_done`. -/
@[reducible] def QueueDiscipline (s : Schedule) : Prop :=
  ∀ p : Fin 9, ∀ i < s.items p,
    s.spawn p ≤ s.startT p i ∧ s.startT p i < s.endT p i ∧ s.endT p i ≤ s.joinRet p

/-- Program order of the orchestrator's main thread on the xenserver path
with a management node (lines 2393–2476): the management thread is started
first, then step 1's workers; each later phase's workers are started only
after the previous phase's queue join returned; after step 7's join the
main thread joins the management thread and only then starts and joins the
reboot-management thread. -/
@[reducible] def MainThreadOrder (s : Schedule) : Prop :=
  s.spawn 0 ≤ s.spawn 1 ∧ s.spawn 1 ≤ s.joinRet 1 ∧
  s.joinRet 1 ≤ s.spawn 2 ∧ s.spawn 2 ≤ s.joinRet 2 ∧
  s.joinRet 2 ≤ s.spawn 3 ∧ s.spawn 3 ≤ s.joinRet 3 ∧
  s.joinRet 3 ≤ s.spawn 4 ∧ s.spawn 4 ≤ s.joinRet 4 ∧
  s.joinRet 4 ≤ s.spawn 5 ∧ s.spawn 5 ≤ s.joinRet 5 ∧
  s.joinRet 5 ≤ s.spawn 6 ∧ s.spawn 6 ≤ s.joinRet 6 ∧
  s.joinRet 6 ≤ s.spawn 7 ∧ s.spawn 7 ≤ s.joinRet 7 ∧
  s.joinRet 7 ≤ s.joinRet 0 ∧ s.joinRet 0 ≤ s.spawn 8 ∧ s.spawn 8 ≤ s.joinRet 8

/-- A timestamp assignment the code admits. -/
@[reducible] def Consistent (s : Schedule) : Prop :=
  QueueDiscipline s ∧ MainThreadOrder s

/-- "No item of phase `q` starts before every item of phase `p` ended." -/
@[reducible] def BarrierHolds (s : Schedule) (p q : Fin 9) : Prop :=
  ∀ i < s.items p, ∀ j < s.items q, s.endT p i ≤ s.startT q j

end Cloudstack

namespace Cleaner

/-! ### `Cleaner.__init__` (`bcf3.0/with_ivs/lib/cleaner.py`)

```python
self.OS_REGION_NAME = None
if 'OS_REGION_NAME' in self.OS_REGION_NAME:
    self.OS_REGION_NAME = os.environ['OS_REGION_NAME']
```

The membership test is made on the attribute just set to `None` (not on
`os.environ`), and `x in None` raises
`TypeError: argument of type 'NoneType' is not iterable`. -/

/-- `needle.toList` occurs contiguously in `hay.toList`. -/
def strContainsSub (hay needle : String) : Bool :=
  go hay.toList needle.toList
where
  startsWith : List Char → List Char → Bool
    | _, [] => true
    | [], _ :: _ => false
    | c :: cs, d :: ds => c = d && startsWith cs ds
  go : List Char → List Char → Bool
    | [], n => n.isEmpty
    | c :: cs, n => startsWith (c :: cs) n || go cs n

/-- Python `needle in hay` where `hay` is a `str` or `None`: substring test
on a string, `TypeError` on `None`. -/
def pyInStr (needle : String) (hay : Option String) : Except String Bool :=
  match hay with
  | none => .error "TypeError: argument of type NoneType is not iterable"
  | some s => .ok (strContainsSub s needle)

/-- The environment-derived attributes `__init__` sets before constructing
the API clients. -/
structure CleanerState where
  OS_AUTH_URL : Option String
  OS_TENANT_ID : Option String
  OS_TENANT_NAME : Option String
  OS_USERNAME : Option String
  OS_PASSWORD : Option String
  OS_REGION_NAME : Option String
deriving DecidableEq

/-- `Cleaner.__init__` up to the client construction, for an arbitrary
process environment `env` (`os.environ` lookup).  Each of the first five
attributes is `None` overwritten from `os.environ` when the variable is
set; the sixth performs the membership test above on `None`. -/
def init (env : String → Option String) : Except String CleanerState :=
  let auth := env "OS_AUTH_URL"
  let tenantId := env "OS_TENANT_ID"
  let tenantName := env "OS_TENANT_NAME"
  let username := env "OS_USERNAME"
  let password := env "OS_PASSWORD"
  let region0 : Option String := none
  match pyInStr "OS_REGION_NAME" region0 with
  | .error e => .error e
  | .ok b =>
    let regionR : Except String (Option String) :=
      if b then
        match env "OS_REGION_NAME" with
        | some v => .ok (some v)
        | none => .error "KeyError: OS_REGION_NAME"
      else .ok region0
    match regionR with
    | .error e => .error e
    | .ok region =>
      .ok { OS_AUTH_URL := auth, OS_TENANT_ID := tenantId,
            OS_TENANT_NAME := tenantName, OS_USERNAME := username,
            OS_PASSWORD := password, OS_REGION_NAME := region }

end Cleaner

/-! ## Concrete instances used by counterexamples and witnesses -/

/-- A timestamp assignment admitted by the code (`Cloudstack.Consistent`)
in which the setup-base-nodes item runs to completion (times 1–2) while
the setup-management item is still executing (times 0–100): the code
creates no synchronisation edge from the management worker's completion to
the step-1 workers. -/
def cexSchedule : Cloudstack.Schedule where
  items := fun _ => 1
  spawn := fun p => [0, 0, 2, 4, 6, 8, 10, 12, 100].getD p.val 0
  startT := fun p _ => [0, 1, 3, 5, 7, 9, 11, 13, 101].getD p.val 0
  endT := fun p _ => [100, 2, 4, 6, 8, 10, 12, 14, 102].getD p.val 0
  joinRet := fun p => [100, 2, 4, 6, 8, 10, 12, 14, 102].getD p.val 0

/-- An ubuntu/ubuntu configuration with a single management node. -/
def exCfgMgmtUbuntu : Cloudstack.CsConfig :=
  { compute_os := "ubuntu", management_os := "ubuntu",
    nodes := [{ hostname := "172.16.54.130", role := "management", xenserver_pool := "" }] }

/-- A xenserver configuration whose single compute node is its pool's
master: the join-cluster queue (`xen_slave_node_q`) receives zero nodes. -/
def exCfgXenNoSlaves : Cloudstack.CsConfig :=
  { compute_os := "xenserver", management_os := "ubuntu",
    nodes := [{ hostname := "172.16.54.132", role := "compute", xenserver_pool := "pool1" }] }

/-- Two compute nodes that agree on every attribute
`generate_interface_config` reads but differ in hostname, credentials and
name label. -/
def exNodeA : Cloudstack.CsNode :=
  { hostname := "hostA", host_name_label := "labelA",
    node_username := "userA", node_password := "pwdA",
    pxe_gw := "10.0.0.1", role := "compute", bond_name := "bond0",
    bond_interfaces := ["eth1", "eth2"],
    pxe_interface := [("interface", .str "eth0"), ("inet", .str "dhcp")],
    management_bond := [],
    bridges := [[("name", .str "br-mgmt"), ("vlan", .null), ("inet", .str "dhcp")]] }

def exNodeB : Cloudstack.CsNode :=
  { hostname := "hostB", host_name_label := "labelB",
    node_username := "userB", node_password := "pwdB",
    pxe_gw := "10.0.0.1", role := "compute", bond_name := "bond0",
    bond_interfaces := ["eth1", "eth2"],
    pxe_interface := [("interface", .str "eth0"), ("inet", .str "dhcp")],
    management_bond := [],
    bridges := [[("name", .str "br-mgmt"), ("vlan", .null), ("inet", .str "dhcp")]] }

/-- An attempt oracle under which every attempt exceeds the timeout. -/
def allTimeoutOracle : Nat → Openstack.AttemptOutcome :=
  fun _ => .timedOut none none

/-! ## Helper lemmas -/

theorem runAux_completed (cmd : String) (oracle : Nat → Openstack.AttemptOutcome)
    (timeout : Nat) (shell : Bool) (idx rem : Nat) (resp errs : Option String)
    (h : oracle idx = .completed resp errs) :
    Openstack.runAux cmd oracle timeout shell idx rem
      = { resp := resp, errors := errs,
          attempts := [⟨cmd, timeout, shell, false⟩] } := by
  unfold Openstack.runAux
  rw [h]

theorem runAux_timedOut_zero (cmd : String) (oracle : Nat → Openstack.AttemptOutcome)
    (timeout : Nat) (shell : Bool) (idx : Nat) (resp errs : Option String)
    (h : oracle idx = .timedOut resp errs) :
    Openstack.runAux cmd oracle timeout shell idx 0
      = { resp := resp, errors := some (Openstack.timeoutMessage cmd),
          attempts := [⟨cmd, timeout, shell, true⟩] } := by
  unfold Openstack.runAux
  rw [h]

theorem runAux_timedOut_succ (cmd : String) (oracle : Nat → Openstack.AttemptOutcome)
    (timeout : Nat) (shell : Bool) (idx n : Nat) (resp errs : Option String)
    (h : oracle idx = .timedOut resp errs) :
    Openstack.runAux cmd oracle timeout shell idx (n + 1)
      = { resp := (Openstack.runAux cmd oracle timeout false (idx + 1) n).resp,
          errors := (Openstack.runAux cmd oracle timeout false (idx + 1) n).errors,
          attempts := ⟨cmd, timeout, shell, true⟩
            :: (Openstack.runAux cmd oracle timeout false (idx + 1) n).attempts } := by
  conv_lhs => unfold Openstack.runAux
  rw [h]

theorem runAux_length_le (cmd : String) (oracle : Nat → Openstack.AttemptOutcome)
    (timeout : Nat) :
    ∀ (rem idx : Nat) (shell : Bool),
      (Openstack.runAux cmd oracle timeout shell idx rem).attempts.length ≤ rem + 1 := by
  intro rem
  induction rem with
  | zero =>
    intro idx shell
    cases h : oracle idx with
    | completed resp errs => rw [runAux_completed cmd oracle timeout shell idx 0 resp errs h]; simp
    | timedOut resp errs => rw [runAux_timedOut_zero cmd oracle timeout shell idx resp errs h]; simp
  | succ n ih =>
    intro idx shell
    cases h : oracle idx with
    | completed resp errs =>
      rw [runAux_completed cmd oracle timeout shell idx (n + 1) resp errs h]
      simp
    | timedOut resp errs =>
      rw [runAux_timedOut_succ cmd oracle timeout shell idx n resp errs h]
      have := ih (idx + 1) false
      simp only [List.length_cons]
      omega

theorem runAux_cmd_timeout_fixed (cmd : String) (oracle : Nat → Openstack.AttemptOutcome)
    (timeout : Nat) :
    ∀ (rem idx : Nat) (shell : Bool),
      ∀ a ∈ (Openstack.runAux cmd oracle timeout shell idx rem).attempts,
        a.cmd = cmd ∧ a.timeout = timeout := by
  intro rem
  induction rem with
  | zero =>
    intro idx shell a ha
    cases h : oracle idx with
    | completed resp errs =>
      rw [runAux_completed cmd oracle timeout shell idx 0 resp errs h] at ha
      simp at ha
      simp [ha]
    | timedOut resp errs =>
      rw [runAux_timedOut_zero cmd oracle timeout shell idx resp errs h] at ha
      simp at ha
      simp [ha]
  | succ n ih =>
    intro idx shell a ha
    cases h : oracle idx with
    | completed resp errs =>
      rw [runAux_completed cmd oracle timeout shell idx (n + 1) resp errs h] at ha
      simp at ha
      simp [ha]
    | timedOut resp errs =>
      rw [runAux_timedOut_succ cmd oracle timeout shell idx n resp errs h] at ha
      simp only [List.mem_cons] at ha
      rcases ha with rfl | ha
      · exact ⟨rfl, rfl⟩
      · exact ih (idx + 1) false a ha

theorem runAux_terminated_iff (cmd : String) (oracle : Nat → Openstack.AttemptOutcome)
    (timeout : Nat) :
    ∀ (rem idx : Nat) (shell : Bool) (i : Nat) (a : Openstack.AttemptRecord),
      (Openstack.runAux cmd oracle timeout shell idx rem).attempts[i]? = some a →
      a.terminated = (oracle (idx + i)).isTimedOut := by
  intro rem
  induction rem with
  | zero =>
    intro idx shell i a ha
    cases h : oracle idx with
    | completed resp errs =>
      rw [runAux_completed cmd oracle timeout shell idx 0 resp errs h] at ha
      cases i with
      | zero => simp at ha; subst ha; simp [h, Openstack.AttemptOutcome.isTimedOut]
      | succ k => simp at ha
    | timedOut resp errs =>
      rw [runAux_timedOut_zero cmd oracle timeout shell idx resp errs h] at ha
      cases i with
      | zero => simp at ha; subst ha; simp [h, Openstack.AttemptOutcome.isTimedOut]
      | succ k => simp at ha
  | succ n ih =>
    intro idx shell i a ha
    cases h : oracle idx with
    | completed resp errs =>
      rw [runAux_completed cmd oracle timeout shell idx (n + 1) resp errs h] at ha
      cases i with
      | zero => simp at ha; subst ha; simp [h, Openstack.AttemptOutcome.isTimedOut]
      | succ k => simp at ha
    | timedOut resp errs =>
      rw [runAux_timedOut_succ cmd oracle timeout shell idx n resp errs h] at ha
      cases i with
      | zero => simp at ha; subst ha; simp [h, Openstack.AttemptOutcome.isTimedOut]
      | succ k =>
        simp only [List.getElem?_cons_succ] at ha
        have hrec := ih (idx + 1) false k a ha
        rw [show idx + (k + 1) = idx + 1 + k by omega]
        exact hrec

theorem runAux_all_timeout (cmd : String) (oracle : Nat → Openstack.AttemptOutcome)
    (timeout : Nat) (hto : ∀ k, (oracle k).isTimedOut = true) :
    ∀ (rem idx : Nat) (shell : Bool),
      (Openstack.runAux cmd oracle timeout shell idx rem).attempts.length = rem + 1 ∧
      (Openstack.runAux cmd oracle timeout shell idx rem).errors
        = some (Openstack.timeoutMessage cmd) := by
  intro rem
  induction rem with
  | zero =>
    intro idx shell
    cases h : oracle idx with
    | completed resp errs =>
      have hk := hto idx
      rw [h] at hk
      simp [Openstack.AttemptOutcome.isTimedOut] at hk
    | timedOut resp errs =>
      rw [runAux_timedOut_zero cmd oracle timeout shell idx resp errs h]
      simp
  | succ n ih =>
    intro idx shell
    cases h : oracle idx with
    | completed resp errs =>
      have hk := hto idx
      rw [h] at hk
      simp [Openstack.AttemptOutcome.isTimedOut] at hk
    | timedOut resp errs =>
      rw [runAux_timedOut_succ cmd oracle timeout shell idx n resp errs h]
      have hr := ih (idx + 1) false
      refine ⟨?_, hr.2⟩
      simp only [List.length_cons, hr.1]

theorem deploy_fold_errors (action : String → Except String Unit) :
    ∀ (nodes : List String) (log : List (String × String)),
      nodes.foldl (fun l n => Openstack.deploy_to_node_catch_errors action n l) log
        = log ++ nodes.filterMap (fun n =>
            match action n with
            | .ok _ => none
            | .error e => some (n, e)) := by
  intro nodes
  induction nodes with
  | nil => intro log; simp
  | cons n ns ih =>
    intro log
    rw [List.foldl_cons]
    cases h : action n with
    | ok u =>
      have hstep : Openstack.deploy_to_node_catch_errors action n log = log := by
        simp [Openstack.deploy_to_node_catch_errors, h]
      rw [hstep, ih]
      simp [List.filterMap_cons, h]
    | error e =>
      have hstep : Openstack.deploy_to_node_catch_errors action n log
          = log ++ [(n, e)] := by
        simp [Openstack.deploy_to_node_catch_errors, h]
      rw [hstep, ih]
      simp [List.filterMap_cons, h]

theorem errors_plus_completed (action : String → Except String Unit) :
    ∀ nodes : List String,
      (nodes.filterMap (fun n =>
          match action n with
          | .ok _ => none
          | .error e => some (n, e))).length
        + (Openstack.completedNodes action nodes).length = nodes.length := by
  intro nodes
  induction nodes with
  | nil => simp [Openstack.completedNodes]
  | cons n ns ih =>
    cases h : action n with
    | ok u =>
      have hc : Openstack.completedNodes action (n :: ns)
          = n :: Openstack.completedNodes action ns := by
        simp [Openstack.completedNodes, List.filter_cons, Openstack.isOkE, h]
      rw [hc]
      simp only [List.filterMap_cons, h, List.length_cons]
      omega
    | error e =>
      have hc : Openstack.completedNodes action (n :: ns)
          = Openstack.completedNodes action ns := by
        simp [Openstack.completedNodes, List.filter_cons, Openstack.isOkE, h]
      rw [hc]
      simp only [List.filterMap_cons, h, List.length_cons]
      omega

theorem dequeSizesAux_bounded :
    ∀ (n len : Nat), len + 1 ≤ Openstack.MAX_THREADS →
      ∀ x ∈ Openstack.dequeSizesAux n len, x ≤ Openstack.MAX_THREADS := by
  intro n
  induction n with
  | zero => intro len hlen x hx; simp [Openstack.dequeSizesAux] at hx
  | succ m ih =>
    intro len hlen x hx
    simp only [Openstack.dequeSizesAux, List.mem_cons] at hx
    rcases hx with rfl | hx
    · exact hlen
    · refine ih _ ?_ x hx
      split <;> rename_i hsplit <;> simp [Openstack.MAX_THREADS] at hsplit hlen ⊢ <;> omega

/-! ## Claims -/

/-- C2: for every command run through `TimedCommand.run` with timeout `T`
and retry budget `R`: an attempt that exceeds the timeout has its process
terminated; at most `R` re-attempts are made (at most `R + 1` attempts in
total), each with the same command and the same timeout; and when the
budget is exhausted by timeouts the runner returns with the
"Timed out waiting for command ... to finish." error message.  The model
is a total function, so the runner never hangs. -/
theorem timed_command_bounded_retries (cmd : String)
    (oracle : Nat → Openstack.AttemptOutcome) (timeout retries : Nat) (shell : Bool) :
    ((Openstack.TimedCommand.run cmd oracle timeout retries shell).attempts.length
        ≤ retries + 1) ∧
    (∀ a ∈ (Openstack.TimedCommand.run cmd oracle timeout retries shell).attempts,
        a.cmd = cmd ∧ a.timeout = timeout) ∧
    (∀ (i : Nat) (a : Openstack.AttemptRecord),
        (Openstack.TimedCommand.run cmd oracle timeout retries shell).attempts[i]? = some a →
        a.terminated = (oracle i).isTimedOut) ∧
    ((∀ k, (oracle k).isTimedOut = true) →
        (Openstack.TimedCommand.run cmd oracle timeout retries shell).attempts.length
            = retries + 1 ∧
        (Openstack.TimedCommand.run cmd oracle timeout retries shell).errors
            = some (Openstack.timeoutMessage cmd)) := by
  refine ⟨runAux_length_le cmd oracle timeout retries 0 shell,
          runAux_cmd_timeout_fixed cmd oracle timeout retries 0 shell,
          ?_, ?_⟩
  · intro i a ha
    have := runAux_terminated_iff cmd oracle timeout retries 0 shell i a ha
    simpa using this
  · intro hto
    exact runAux_all_timeout cmd oracle timeout hto retries 0 shell

/-- C2 witness: with an oracle under which every attempt times out, a run
with `retries = 2` performs exactly three attempts and returns the timeout
error message. -/
theorem timed_command_bounded_retries_witness :
    (Openstack.TimedCommand.run "ifconfig eth1" allTimeoutOracle 60 2 false).attempts.length
        = 2 + 1 ∧
    (Openstack.TimedCommand.run "ifconfig eth1" allTimeoutOracle 60 2 false).errors
        = some (Openstack.timeoutMessage "ifconfig eth1") :=
  (timed_command_bounded_retries "ifconfig eth1" allTimeoutOracle 60 2 false).2.2.2
    (fun _ => rfl)

/-- C3 (evaluation at the failing input): a command issued with
`shell=True`, `timeout=60`, `retries=1` whose first attempt times out is
re-attempted with the same command and timeout, but the recursive call
`self.run(timeout, retries)` omits the `shell` argument, so the re-attempt
runs with `shell=False` — not the same execution mode. -/
theorem timed_command_retry_drops_shell :
    (Openstack.TimedCommand.run "service neutron-server restart" allTimeoutOracle
        60 1 true).attempts
      = [⟨"service neutron-server restart", 60, true, true⟩,
         ⟨"service neutron-server restart", 60, false, true⟩] := by decide

/-- C7: every node whose action raises has the pair
`(node, str(exception))` appended to the shared error list; the fan-out
processes every configured node regardless of other nodes' failures (the
counts of failed and completed nodes always partition the node list); and
the final summary prints one `"Error on node %s:\n%s"` line per failure. -/
theorem node_failures_collected_isolated (action : String → Except String Unit)
    (nodes : List String) :
    (Openstack.ConfigDeployer.deploy_to_all action nodes
        = nodes.filterMap (fun n =>
            match action n with
            | .ok _ => none
            | .error e => some (n, e))) ∧
    ((Openstack.ConfigDeployer.deploy_to_all action nodes).length
        + (Openstack.completedNodes action nodes).length = nodes.length) ∧
    (Openstack.finalSummary (Openstack.ConfigDeployer.deploy_to_all action nodes)
        = (Openstack.ConfigDeployer.deploy_to_all action nodes).map
            (fun p => "Error on node " ++ p.1 ++ ":\n" ++ p.2)) := by
  have h1 : Openstack.ConfigDeployer.deploy_to_all action nodes
      = nodes.filterMap (fun n =>
          match action n with
          | .ok _ => none
          | .error e => some (n, e)) := by
    have := deploy_fold_errors action nodes []
    simpa [Openstack.ConfigDeployer.deploy_to_all] using this
  refine ⟨h1, ?_, rfl⟩
  rw [h1]
  exact errors_plus_completed action nodes

/-- C10: constructing a `Cleaner` always raises `TypeError`, whatever the
process environment holds: `__init__` sets `self.OS_REGION_NAME = None`
and then evaluates `'OS_REGION_NAME' in self.OS_REGION_NAME`, a membership
test on `None`; no instance is ever created. -/
theorem cleaner_init_always_raises (env : String → Option String) :
    Cleaner.init env
      = .error "TypeError: argument of type NoneType is not iterable" := rfl

theorem barrier_of_join_le_spawn (s : Cloudstack.Schedule)
    (hq : Cloudstack.QueueDiscipline s) (p q : Fin 9)
    (hle : s.joinRet p ≤ s.spawn q) : Cloudstack.BarrierHolds s p q := by
  intro i hi j hj
  have h1 := (hq p i hi).2.2
  have h2 := (hq q j hj).1
  omega

/-- C1 (amended): for every consecutive pair among setup-base-nodes,
join-cluster, assign-ip, change-mgmt-interface, reboot-primary,
reboot-secondary, verify-bond, reboot-management the join barrier holds in
every execution the code admits, and setup-management is guaranteed
complete before reboot-management; the pair
(setup-management, setup-base-nodes) is excluded — the management worker
runs concurrently with step 1 (see the counterexample). -/
theorem phase_barriers_after_step_one (s : Cloudstack.Schedule)
    (h : Cloudstack.Consistent s) :
    Cloudstack.BarrierHolds s 1 2 ∧ Cloudstack.BarrierHolds s 2 3 ∧
    Cloudstack.BarrierHolds s 3 4 ∧ Cloudstack.BarrierHolds s 4 5 ∧
    Cloudstack.BarrierHolds s 5 6 ∧ Cloudstack.BarrierHolds s 6 7 ∧
    Cloudstack.BarrierHolds s 7 8 ∧ Cloudstack.BarrierHolds s 0 8 := by
  obtain ⟨hq, ho⟩ := h
  obtain ⟨o1, o2, o3, o4, o5, o6, o7, o8, o9, o10, o11, o12, o13, o14, o15, o16, o17⟩ := ho
  exact ⟨barrier_of_join_le_spawn s hq 1 2 o3,
         barrier_of_join_le_spawn s hq 2 3 o5,
         barrier_of_join_le_spawn s hq 3 4 o7,
         barrier_of_join_le_spawn s hq 4 5 o9,
         barrier_of_join_le_spawn s hq 5 6 o11,
         barrier_of_join_le_spawn s hq 6 7 o13,
         barrier_of_join_le_spawn s hq 7 8 (Nat.le_trans o15 o16),
         barrier_of_join_le_spawn s hq 0 8 o16⟩

/-- C1 counterexample: `cexSchedule` satisfies every synchronisation edge
the code creates, yet its setup-base-nodes item starts (time 1) long
before the setup-management item ends (time 100): the code enforces no
barrier between setup-management and setup-base-nodes. -/
theorem setup_management_no_barrier :
    Cloudstack.Consistent cexSchedule ∧
    ¬ Cloudstack.BarrierHolds cexSchedule 0 1 := by
  constructor
  · exact ⟨by decide, by decide⟩
  · intro hb
    have := hb 0 (by decide) 0 (by decide)
    revert this
    decide

/-- C1 witness: the amended barrier conclusion instantiated at a concrete
consistent schedule. -/
theorem phase_barriers_after_step_one_witness :
    Cloudstack.Consistent cexSchedule ∧ Cloudstack.BarrierHolds cexSchedule 1 2 := by
  have hc : Cloudstack.Consistent cexSchedule := ⟨by decide, by decide⟩
  exact ⟨hc, (phase_barriers_after_step_one cexSchedule hc).1⟩

theorem deploy_runs_shape (cfg : Cloudstack.CsConfig) (isfile : String → Bool)
    (runs : List Cloudstack.PhaseRun)
    (h : Cloudstack.deploy_to_all cfg isfile = .completed runs) :
    ∀ r ∈ runs,
      (r.workersSpawned = 1 ∧ (r.phase = 0 ∨ r.phase = 8) ∧ r.queueItems = 1) ∨
      (r.workersSpawned = Cloudstack.MAX_WORKERS ∧ r.phase ≠ 0 ∧ r.phase ≠ 8) := by
  intro r hr
  cases hp : Cloudstack.preflightAbort cfg (Cloudstack.populateQueues cfg) isfile with
  | some m => simp [Cloudstack.deploy_to_all, hp] at h
  | none =>
    simp only [Cloudstack.deploy_to_all, hp] at h
    by_cases hos : cfg.compute_os = "ubuntu" ∨ cfg.compute_os = "centos"
    · rw [if_pos hos] at h
      cases hm : (Cloudstack.populateQueues cfg).management_node with
      | some n =>
        rw [hm] at h
        injection h with h
        subst h
        simp only [List.mem_append, List.mem_cons, List.mem_singleton,
          List.not_mem_nil, or_false] at hr
        rcases hr with (rfl | rfl) | rfl
        · exact Or.inl ⟨rfl, Or.inl rfl, rfl⟩
        · right
          exact ⟨rfl, show (1 : Fin 9) ≠ 0 by decide, show (1 : Fin 9) ≠ 8 by decide⟩
        · exact Or.inl ⟨rfl, Or.inr rfl, rfl⟩
      | none =>
        rw [hm] at h
        injection h with h
        subst h
        simp only [List.nil_append, List.mem_singleton] at hr
        subst hr
        right
        exact ⟨rfl, show (1 : Fin 9) ≠ 0 by decide, show (1 : Fin 9) ≠ 8 by decide⟩
    · rw [if_neg hos] at h
      cases hm : (Cloudstack.populateQueues cfg).management_node with
      | some n =>
        rw [hm] at h
        injection h with h
        subst h
        simp only [List.mem_append, List.mem_cons, List.mem_singleton,
          List.not_mem_nil, or_false] at hr
        rcases hr with ((rfl | rfl) | rfl | rfl | rfl | rfl | rfl | rfl) | rfl
        · exact Or.inl ⟨rfl, Or.inl rfl, rfl⟩
        · right
          exact ⟨rfl, show (1 : Fin 9) ≠ 0 by decide, show (1 : Fin 9) ≠ 8 by decide⟩
        · right
          exact ⟨rfl, show (2 : Fin 9) ≠ 0 by decide, show (2 : Fin 9) ≠ 8 by decide⟩
        · right
          exact ⟨rfl, show (3 : Fin 9) ≠ 0 by decide, show (3 : Fin 9) ≠ 8 by decide⟩
        · right
          exact ⟨rfl, show (4 : Fin 9) ≠ 0 by decide, show (4 : Fin 9) ≠ 8 by decide⟩
        · right
          exact ⟨rfl, show (5 : Fin 9) ≠ 0 by decide, show (5 : Fin 9) ≠ 8 by decide⟩
        · right
          exact ⟨rfl, show (6 : Fin 9) ≠ 0 by decide, show (6 : Fin 9) ≠ 8 by decide⟩
        · right
          exact ⟨rfl, show (7 : Fin 9) ≠ 0 by decide, show (7 : Fin 9) ≠ 8 by decide⟩
        · exact Or.inl ⟨rfl, Or.inr rfl, rfl⟩
      | none =>
        rw [hm] at h
        injection h with h
        subst h
        simp only [List.nil_append, List.mem_append, List.mem_cons,
          List.mem_singleton, List.not_mem_nil, or_false] at hr
        rcases hr with rfl | rfl | rfl | rfl | rfl | rfl | rfl
        · right
          exact ⟨rfl, show (1 : Fin 9) ≠ 0 by decide, show (1 : Fin 9) ≠ 8 by decide⟩
        · right
          exact ⟨rfl, show (2 : Fin 9) ≠ 0 by decide, show (2 : Fin 9) ≠ 8 by decide⟩
        · right
          exact ⟨rfl, show (3 : Fin 9) ≠ 0 by decide, show (3 : Fin 9) ≠ 8 by decide⟩
        · right
          exact ⟨rfl, show (4 : Fin 9) ≠ 0 by decide, show (4 : Fin 9) ≠ 8 by decide⟩
        · right
          exact ⟨rfl, show (5 : Fin 9) ≠ 0 by decide, show (5 : Fin 9) ≠ 8 by decide⟩
        · right
          exact ⟨rfl, show (6 : Fin 9) ≠ 0 by decide, show (6 : Fin 9) ≠ 8 by decide⟩
        · right
          exact ⟨rfl, show (7 : Fin 9) ≠ 0 by decide, show (7 : Fin 9) ≠ 8 by decide⟩

/-- C8: the number of per-node worker threads running concurrently never
exceeds the fixed pool bound.  OpenStack: every deque length observed
right after a thread start is at most `MAX_THREADS = 20` (threads leave
the deque only after `join` confirms them dead, so live workers are
always a subset of the deque).  CloudStack: every phase run starts at most
`MAX_WORKERS = 10` worker threads for its queue (the dedicated
management/reboot threads count 1), so at most 10 threads ever serve one
phase's queue. -/
theorem worker_pool_bounded :
    (∀ (numNodes : Nat), ∀ x ∈ Openstack.deployDequeSizes numNodes,
        x ≤ Openstack.MAX_THREADS) ∧
    (∀ (cfg : Cloudstack.CsConfig) (isfile : String → Bool)
        (runs : List Cloudstack.PhaseRun),
        Cloudstack.deploy_to_all cfg isfile = .completed runs →
        ∀ r ∈ runs, r.workersSpawned ≤ Cloudstack.MAX_WORKERS) := by
  constructor
  · intro numNodes x hx
    exact dequeSizesAux_bounded numNodes 0 (by norm_num [Openstack.MAX_THREADS]) x hx
  · intro cfg isfile runs h r hr
    rcases deploy_runs_shape cfg isfile runs h r hr with ⟨h1, _, _⟩ | ⟨h1, _, _⟩
    · rw [h1]; norm_num [Cloudstack.MAX_WORKERS]
    · rw [h1]

/-- C8 witness: part one applied at a one-node run (deque length 1 after
the only start), part two applied at the ubuntu single-management-node
configuration, whose step-1 phase run spawns exactly `MAX_WORKERS`
threads. -/
theorem worker_pool_bounded_witness :
    (1 : Nat) ≤ Openstack.MAX_THREADS ∧
    (⟨1, Cloudstack.MAX_WORKERS, 0⟩ : Cloudstack.PhaseRun).workersSpawned
      ≤ Cloudstack.MAX_WORKERS :=
  ⟨worker_pool_bounded.1 1 1 (by decide),
   worker_pool_bounded.2 exCfgMgmtUbuntu (fun _ => true)
     [⟨0, 1, 1⟩, ⟨1, Cloudstack.MAX_WORKERS, 0⟩, ⟨8, 1, 1⟩] (by decide)
     ⟨1, Cloudstack.MAX_WORKERS, 0⟩ (by decide)⟩

/-- C9 (amended): when a phase's queue holds zero eligible nodes the
orchestrator's `join` on that queue returns immediately (it waits for zero
`task_done` events), but — contrary to the claim's second half — the code
still spawns its fixed pool of daemon worker threads for the phase
(`MAX_WORKERS` for each queue-driven phase), and with the queue empty all
of them block indefinitely inside `q.get()`; being daemon threads they are
discarded at process exit rather than joined. -/
theorem empty_phase_join_returns_immediately (cfg : Cloudstack.CsConfig)
    (isfile : String → Bool) (runs : List Cloudstack.PhaseRun)
    (h : Cloudstack.deploy_to_all cfg isfile = .completed runs)
    (r : Cloudstack.PhaseRun) (hr : r ∈ runs) (hempty : r.queueItems = 0) :
    Cloudstack.joinWaitsFor r = 0 ∧
    Cloudstack.workersBlockedForever r = r.workersSpawned ∧
    r.workersSpawned = Cloudstack.MAX_WORKERS := by
  refine ⟨hempty, rfl, ?_⟩
  rcases deploy_runs_shape cfg isfile runs h r hr with ⟨_, _, hq⟩ | ⟨hw, _, _⟩
  · rw [hempty] at hq; exact absurd hq (by decide)
  · exact hw

/-- C9 counterexample: a xenserver configuration whose only compute node
is its pool's master leaves the join-cluster queue empty, yet the
orchestrator still spawns `MAX_WORKERS = 10` join-cluster workers, all of
which block indefinitely on the empty queue — refuting "no worker threads
are spawned that block indefinitely waiting on the empty queue". -/
theorem empty_phase_spawns_blocked_workers :
    Cloudstack.deploy_to_all exCfgXenNoSlaves (fun _ => true)
      = .completed
          [⟨1, 10, 1⟩, ⟨2, 10, 0⟩, ⟨3, 10, 1⟩, ⟨4, 10, 1⟩,
           ⟨5, 10, 1⟩, ⟨6, 10, 0⟩, ⟨7, 10, 1⟩] ∧
    Cloudstack.workersBlockedForever ⟨2, 10, 0⟩ = 10 := by decide

/-- C9 witness: the amended conclusion at the empty join-cluster phase of
the xenserver configuration without slaves. -/
theorem empty_phase_join_returns_immediately_witness :
    Cloudstack.joinWaitsFor ⟨2, 10, 0⟩ = 0 ∧
    Cloudstack.workersBlockedForever ⟨2, 10, 0⟩ = (10 : Nat) :=
  ⟨(empty_phase_join_returns_immediately exCfgXenNoSlaves (fun _ => true)
      [⟨1, 10, 1⟩, ⟨2, 10, 0⟩, ⟨3, 10, 1⟩, ⟨4, 10, 1⟩,
       ⟨5, 10, 1⟩, ⟨6, 10, 0⟩, ⟨7, 10, 1⟩] (by decide)
      ⟨2, 10, 0⟩ (by decide) rfl).1,
   (empty_phase_join_returns_immediately exCfgXenNoSlaves (fun _ => true)
      [⟨1, 10, 1⟩, ⟨2, 10, 0⟩, ⟨3, 10, 1⟩, ⟨4, 10, 1⟩,
       ⟨5, 10, 1⟩, ⟨6, 10, 0⟩, ⟨7, 10, 1⟩] (by decide)
      ⟨2, 10, 0⟩ (by decide) rfl).2.1⟩

/-- C6: when a required install package is missing on the control host —
as detected by the five guards of `deploy_to_all` (common package,
management package when a management node exists, agent package when
compute nodes are queued, awsapi package on a centos management host) —
the orchestrator returns the guard's message before any
`threading.Thread` is created: the outcome is `aborted` and carries no
phase runs, so no per-node phase work is dispatched. -/
theorem preflight_missing_package_aborts (cfg : Cloudstack.CsConfig)
    (isfile : String → Bool)
    (h : (Cloudstack.preflightAbort cfg (Cloudstack.populateQueues cfg) isfile).isSome
        = true) :
    Cloudstack.deploy_to_all cfg isfile
      = .aborted ((Cloudstack.preflightAbort cfg
          (Cloudstack.populateQueues cfg) isfile).getD "") := by
  cases hp : Cloudstack.preflightAbort cfg (Cloudstack.populateQueues cfg) isfile with
  | none => rw [hp] at h; simp at h
  | some m => simp [Cloudstack.deploy_to_all, hp]

/-- C6 witness: with no package file present, the ubuntu
single-management-node deployment aborts with the common-package message
before creating any worker thread. -/
theorem preflight_missing_package_aborts_witness :
    Cloudstack.deploy_to_all exCfgMgmtUbuntu (fun _ => false)
      = .aborted "cloudstack common package is missing\n" :=
  preflight_missing_package_aborts exCfgMgmtUbuntu (fun _ => false) (by decide)

theorem alistLookup_set_preserve (k v k' : String) :
    ∀ m : List (String × String),
      (alistLookup m k').isSome = true →
      (alistLookup (alistSet m k v) k').isSome = true := by
  intro m
  induction m with
  | nil => intro h; simp [alistLookup] at h
  | cons kv rest ih =>
    obtain ⟨k₀, v₀⟩ := kv
    intro h
    by_cases hk : k₀ = k
    · subst hk
      simp only [alistSet, if_pos rfl]
      by_cases hk' : k₀ = k'
      · simp [alistLookup, hk']
      · simp only [alistLookup, if_neg hk'] at h ⊢
        exact h
    · simp only [alistSet, if_neg hk]
      by_cases hk' : k₀ = k'
      · simp [alistLookup, hk']
      · simp only [alistLookup, if_neg hk'] at h ⊢
        exact ih h

theorem foldSet_preserves (k : String) :
    ∀ (ov : List (String × String)) (m : List (String × String)),
      (alistLookup m k).isSome = true →
      (alistLookup (ov.foldl (fun acc kv => alistSet acc kv.1 kv.2) m) k).isSome = true := by
  intro ov
  induction ov with
  | nil => intro m h; simpa using h
  | cons a rest ih =>
    intro m h
    simp only [List.foldl_cons]
    exact ih (alistSet m a.1 a.2) (alistLookup_set_preserve a.1 a.2 k m h)

theorem mkSettings_preserves (overrides : List (String × String)) (k : String)
    (h : (alistLookup Openstack.PuppetTemplate.defaultSettings k).isSome = true) :
    (alistLookup (Openstack.PuppetTemplate.mkSettings overrides) k).isSome = true :=
  foldSet_preserves k overrides Openstack.PuppetTemplate.defaultSettings h

theorem renderChunks_ok_of_keys :
    ∀ (t : List Openstack.Chunk) (m : List (String × String)),
      (∀ k, Openstack.Chunk.key k ∈ t → (alistLookup m k).isSome = true) →
      ∃ v, Openstack.renderChunks t m = .ok v := by
  intro t
  induction t with
  | nil => intro m _; exact ⟨"", rfl⟩
  | cons c rest ih =>
    intro m h
    have hrest : ∀ k, Openstack.Chunk.key k ∈ rest → (alistLookup m k).isSome = true :=
      fun k hk => h k (List.mem_cons_of_mem _ hk)
    obtain ⟨v, hv⟩ := ih m hrest
    cases c with
    | lit s => exact ⟨s ++ v, by simp [Openstack.renderChunks, hv]⟩
    | key k =>
      have hk := h k (List.mem_cons_self _ _)
      obtain ⟨w, hw⟩ : ∃ w, alistLookup m k = some w := by
        cases hl : alistLookup m k with
        | none => rw [hl] at hk; simp at hk
        | some w => exact ⟨w, rfl⟩
      exact ⟨w ++ v, by simp [Openstack.renderChunks, hw, hv]⟩

/-- C4 (amended): Python `%`-substitution itself raises `KeyError` on a key
missing from its mapping, but `PuppetTemplate.__init__` lays the caller's
mapping over a complete default dict, so every key the templates require
is always present at substitution time: rendering succeeds for every input
mapping, and a key the caller omits is silently rendered with its declared
default rather than being a fatal error. -/
theorem puppet_render_total_with_defaults (overrides files : List (String × String)) :
    Openstack.isOkE (Openstack.PuppetTemplate.get_string
      (Openstack.PuppetTemplate.mkSettings overrides) files) = true := by
  have hkeys : ∀ k, Openstack.Chunk.key k ∈ Openstack.PuppetTemplate.main_body →
      (alistLookup (Openstack.PuppetTemplate.mkSettings overrides) k).isSome = true := by
    intro k hk
    simp only [Openstack.PuppetTemplate.main_body, List.mem_cons, List.not_mem_nil,
      or_false] at hk
    rcases hk with hk | hk | hk | hk | hk | hk | hk | hk | hk | hk | hk | hk | hk | hk |
      hk | hk | hk | hk | hk | hk | hk | hk | hk | hk | hk | hk | hk <;>
      (cases hk <;> exact mkSettings_preserves overrides _ (by decide))
  obtain ⟨v, hv⟩ := renderChunks_ok_of_keys Openstack.PuppetTemplate.main_body
    (Openstack.PuppetTemplate.mkSettings overrides) hkeys
  obtain ⟨np, hnp⟩ : ∃ w, alistLookup (Openstack.PuppetTemplate.mkSettings overrides)
      "neutron_path" = some w := by
    have := mkSettings_preserves overrides "neutron_path" (by decide)
    cases hl : alistLookup (Openstack.PuppetTemplate.mkSettings overrides) "neutron_path" with
    | none => rw [hl] at this; simp at this
    | some w => exact ⟨w, rfl⟩
  obtain ⟨bi, hbi⟩ : ∃ w, alistLookup (Openstack.PuppetTemplate.mkSettings overrides)
      "bond_interfaces" = some w := by
    have := mkSettings_preserves overrides "bond_interfaces" (by decide)
    cases hl : alistLookup (Openstack.PuppetTemplate.mkSettings overrides) "bond_interfaces" with
    | none => rw [hl] at this; simp at this
    | some w => exact ⟨w, rfl⟩
  unfold Openstack.PuppetTemplate.get_string
  rw [hv]
  simp only [Openstack.dictGet, hnp, hbi]
  by_cases hnp0 : np ≠ "" <;>
    simp [hnp0, Openstack.renderChunks, Openstack.isOkE]

/-- C4 counterexample: rendering with the EMPTY input mapping — which omits
every key the template requires — succeeds rather than failing, and the
omitted `physical_bridge` key is silently rendered with its default value
`br-ovs-bond0`. -/
theorem puppet_render_succeeds_without_keys :
    Openstack.isOkE (Openstack.PuppetTemplate.get_string
        (Openstack.PuppetTemplate.mkSettings []) []) = true ∧
    alistLookup (Openstack.PuppetTemplate.mkSettings []) "physical_bridge"
      = some "br-ovs-bond0" ∧
    alistLookup ([] : List (String × String)) "physical_bridge" = none := by
  refine ⟨?_, by decide, rfl⟩
  decide

/-- C5: template rendering is a pure, deterministic function of its
declared inputs.  `PuppetTemplate.get_string` reads only the merged
settings dict and the replacement-file list (plus the statically declared
class constants), so equal inputs give byte-identical manifests; and
`generate_interface_config` reads only the node's pxe interface, pxe
gateway, bond members, bond name, role, management bond and bridges — two
nodes agreeing on those (but differing in hostname, credentials or name
label) render byte-identical interface configurations. -/
theorem template_rendering_pure
    (m₁ m₂ f₁ f₂ : List (String × String)) (hm : m₁ = m₂) (hf : f₁ = f₂)
    (n₁ n₂ : Cloudstack.CsNode)
    (hpxe : n₁.pxe_interface = n₂.pxe_interface)
    (hgw : n₁.pxe_gw = n₂.pxe_gw)
    (hbi : n₁.bond_interfaces = n₂.bond_interfaces)
    (hbn : n₁.bond_name = n₂.bond_name)
    (hrole : n₁.role = n₂.role)
    (hmb : n₁.management_bond = n₂.management_bond)
    (hbr : n₁.bridges = n₂.bridges) :
    Openstack.PuppetTemplate.get_string (Openstack.PuppetTemplate.mkSettings m₁) f₁
      = Openstack.PuppetTemplate.get_string (Openstack.PuppetTemplate.mkSettings m₂) f₂ ∧
    Cloudstack.interfaceConfigText n₁ = Cloudstack.interfaceConfigText n₂ := by
  subst hm hf
  refine ⟨rfl, ?_⟩
  simp only [Cloudstack.interfaceConfigText, hpxe, hgw, hbi, hbn, hrole, hmb, hbr]

/-- C5 witness: two concrete compute nodes that differ in hostname,
credentials and name label but agree on the rendering-relevant attributes
produce byte-identical interface configurations. -/
theorem template_rendering_pure_witness :
    Openstack.PuppetTemplate.get_string
        (Openstack.PuppetTemplate.mkSettings [("neutron_id", "bcf")]) []
      = Openstack.PuppetTemplate.get_string
        (Openstack.PuppetTemplate.mkSettings [("neutron_id", "bcf")]) [] ∧
    Cloudstack.interfaceConfigText exNodeA = Cloudstack.interfaceConfigText exNodeB :=
  template_rendering_pure [("neutron_id", "bcf")] [("neutron_id", "bcf")] [] [] rfl rfl
    exNodeA exNodeB rfl rfl rfl rfl rfl rfl rfl
